import Mathlib

/-!
Verification development for the always-on-app backend
(`backend/app`), a selective-capture transcription pipeline:
speaker-identity gating, session grouping, transcript storage and
listing, time-filter parsing, and token-budgeted retrieval context
assembly.

Conventions of the shallow embedding:
* Naive UTC datetimes (`datetime` without tzinfo) are modelled as `Int`
  seconds since the epoch.
* Python strings are modelled as `List Char`; floats and `Decimal`
  values as `ℚ` (speaker-similarity geometry, which involves square
  roots, is modelled over `ℝ`).
* Database rows live in an explicit in-memory store (`List Transcript`);
  a route handler is a function from its inputs and the store to an
  `Except` of an error or a response paired with the updated store.
* Calls to external collaborators (Whisper, OpenAI embeddings, the
  geocoder, the ECAPA embedding extractor, `uuid4`, DB id generation)
  are passed in as explicit outcome parameters, mirroring the spec's
  treatment of them as opaque functions.
-/

namespace AlwaysOn

/-- Error taxonomy of the route handlers, mirroring the `HTTPException`
cases raised in `routers/enrollment.py`, `routers/transcription.py` and
`routers/chat.py`, plus the typed audio-validation failure. -/
inductive AudioValidationError where
  | tooShort
  | tooLong
  | invalidSampleRate
deriving DecidableEq

/-- HTTP-level errors of the embedded route handlers. -/
inductive ApiError where
  | invalidTimestamp
  | userNotFound
  | notEnrolled
  | verificationFailed
  | transcriptionFailed
  | audioFormat (code : AudioValidationError)
  | queryEmbedFailed
deriving DecidableEq

/-- User row (`models/user.py`), restricted to the fields the pipeline
reads: primary key, display name, and the optional enrolled voiceprint
(`voiceprint_embedding`). -/
structure UserR where
  id : Nat
  name : List Char
  voiceprint_embedding : Option (List ℚ)
deriving DecidableEq

/-- Transcript row (`models/transcript.py`). `created_at` (a DB-side
default never read by the pipeline) is omitted. -/
structure Transcript where
  id : Nat
  user_id : Nat
  session_id : Nat
  speaker_type : List Char
  speaker_id : Option Nat
  speaker_name : List Char
  transcript_text : List Char
  timestamp_start : Int
  timestamp_end : Int
  latitude : Option ℚ
  longitude : Option ℚ
  location_name : Option (List Char)
  embedding : Option (List ℚ)
deriving DecidableEq

/-- Response segment built by `transcribe_audio`
(`schemas/transcript.py`, `TranscriptSegment`, plus the `location_name`
the router passes to its constructor). -/
structure TranscriptSegment where
  transcript_id : Nat
  speaker_type : List Char
  speaker_name : List Char
  text : List Char
  timestamp_start : Int
  timestamp_end : Int
  location_name : Option (List Char)
deriving DecidableEq

/-- Response of the `/transcribe` endpoint (`schemas/transcript.py`). -/
structure TranscribeResponse where
  processed : Bool
  segments : List TranscriptSegment
  filtered_segments : Nat
  session_id : Option Nat
deriving DecidableEq

/-- Response row of the `/transcripts` listing
(`schemas/transcript.py`, `TranscriptResponse`; `created_at` omitted as
in `Transcript`). -/
structure TranscriptResponseR where
  id : Nat
  session_id : Nat
  speaker_type : List Char
  speaker_name : List Char
  text : List Char
  timestamp_start : Int
  timestamp_end : Int
  latitude : Option ℚ
  longitude : Option ℚ
  location_name : Option (List Char)
deriving DecidableEq

/-- Response of the `/transcripts` endpoint. -/
structure TranscriptListResponse where
  transcripts : List TranscriptResponseR
  total : Nat
deriving DecidableEq

/-- Session gap threshold (`routers/transcription.py` line 32):
a new session is started if the gap exceeds 5 minutes. -/
def SESSION_GAP_MINUTES : Int := 5

/-- Most recent transcript of a user, selected by maximal
`timestamp_end` (the `order_by(desc(Transcript.timestamp_end)).limit(1)`
query in `get_or_create_session_id`; on ties the earliest-inserted row
is kept, refining the database's unspecified tie order). -/
def lastTranscriptFor (store : List Transcript) (uid : Nat) : Option Transcript :=
  (store.filter (fun t => t.user_id == uid)).foldl
    (fun acc t =>
      match acc with
      | none => some t
      | some b => if b.timestamp_end < t.timestamp_end then some t else some b)
    none

/-- Session resolution (`routers/transcription.py`,
`get_or_create_session_id`): reuse the most recent transcript's session
unless there is no previous transcript or the gap exceeds the
threshold; `fresh` stands for the `uuid4()` a new session mints. -/
def get_or_create_session_id (store : List Transcript) (uid : Nat)
    (timestamp_start : Int) (fresh : Nat) : Nat :=
  match lastTranscriptFor store uid with
  | none => fresh
  | some last =>
      if SESSION_GAP_MINUTES * 60 < timestamp_start - last.timestamp_end then fresh
      else last.session_id

/-- Whitespace strip of a Python `str.strip()` call on `List Char`. -/
def stripWs (s : List Char) : List Char :=
  ((s.dropWhile Char.isWhitespace).reverse.dropWhile Char.isWhitespace).reverse

/-- The `/transcribe` route handler (`routers/transcription.py`,
`transcribe_audio`), from the point where the upload has been read.
`parsedTs` is the outcome of ISO-timestamp parsing (`none` models a
`ValueError`); `user` is the firebase-uid lookup result; `similarity`
and `threshold` are the speaker-verification outcome consumed at line
148 and 173 (`is_match` is recomputed as `threshold ≤ similarity`,
verbatim from `verify_speaker`); `whisperResult`, `geocodeResult` and
`embedResult` are the opaque backend outcomes (`none` = failure, which
for geocoding and embedding is swallowed). `freshSession` and `freshId`
stand for `uuid4()` and the DB-generated primary key. Returns the
response together with the updated store. -/
def transcribe_audio (store : List Transcript) (user : Option UserR)
    (parsedTs : Option (Int × Int)) (lat lng : Option ℚ)
    (similarity threshold : ℚ) (whisperResult : Option (List Char))
    (geocodeResult : Option (List Char)) (embedResult : Option (List ℚ))
    (freshSession freshId : Nat) :
    Except ApiError (TranscribeResponse × List Transcript) :=
  match parsedTs with
  | none => .error .invalidTimestamp
  | some (ts_start, ts_end) =>
  match user with
  | none => .error .userNotFound
  | some u =>
  match u.voiceprint_embedding with
  | none => .error .notEnrolled
  | some _ =>
  if threshold ≤ similarity then
    match whisperResult with
    | none => .error .transcriptionFailed
    | some transcript_text =>
      if (stripWs transcript_text).isEmpty then
        .ok ({ processed := true, segments := [], filtered_segments := 0,
               session_id := none }, store)
      else
        let session_id := get_or_create_session_id store u.id ts_start freshSession
        let location_name := if lat.isSome && lng.isSome then geocodeResult else none
        let t : Transcript :=
          { id := freshId, user_id := u.id, session_id := session_id,
            speaker_type := "primary".toList, speaker_id := none,
            speaker_name := u.name, transcript_text := transcript_text,
            timestamp_start := ts_start, timestamp_end := ts_end,
            latitude := lat, longitude := lng, location_name := location_name,
            embedding := embedResult }
        let seg : TranscriptSegment :=
          { transcript_id := freshId, speaker_type := "primary".toList,
            speaker_name := u.name, text := transcript_text,
            timestamp_start := ts_start, timestamp_end := ts_end,
            location_name := location_name }
        .ok ({ processed := true, segments := [seg], filtered_segments := 0,
               session_id := some session_id }, store ++ [t])
  else
    .ok ({ processed := true, segments := [], filtered_segments := 1,
           session_id := none }, store)

/-- Insertion step of the `order_by(desc(timestamp_start))` sort used by
the listing endpoint (stable, newest first). -/
def insertByStartDesc (t : Transcript) : List Transcript → List Transcript
  | [] => [t]
  | b :: rest =>
      if b.timestamp_start ≤ t.timestamp_start then t :: b :: rest
      else b :: insertByStartDesc t rest

/-- Stable sort by `timestamp_start` descending. -/
def sortByStartDesc : List Transcript → List Transcript
  | [] => []
  | t :: rest => insertByStartDesc t (sortByStartDesc rest)

/-- Projection of a stored row to a listing-response row. -/
def toTranscriptResponse (t : Transcript) : TranscriptResponseR :=
  { id := t.id, session_id := t.session_id, speaker_type := t.speaker_type,
    speaker_name := t.speaker_name, text := t.transcript_text,
    timestamp_start := t.timestamp_start, timestamp_end := t.timestamp_end,
    latitude := t.latitude, longitude := t.longitude,
    location_name := t.location_name }

/-- The `/transcripts` route handler (`routers/transcription.py`,
`get_transcripts`). Note that the count query (lines 335-338) filters
by `user_id` only: the `session_id` filter applied to the page query is
not applied to `total`. -/
def get_transcripts (store : List Transcript) (user : Option UserR)
    (limit offset : Nat) (session_id : Option Nat) :
    Except ApiError TranscriptListResponse :=
  match user with
  | none => .error .userNotFound
  | some u =>
    let base := store.filter (fun t => t.user_id == u.id)
    let filtered :=
      match session_id with
      | some s => base.filter (fun t => t.session_id == s)
      | none => base
    let total := (store.filter (fun t => t.user_id == u.id)).length
    let page := ((sortByStartDesc filtered).drop offset).take limit
    .ok { transcripts := page.map toTranscriptResponse, total := total }

/-- Total count of a listing outcome, `none` on an error response. -/
def listTotal (r : Except ApiError TranscriptListResponse) : Option Nat :=
  match r with
  | .ok x => some x.total
  | .error _ => none

/-- ASCII lowercasing of one character (`str.lower()` restricted to the
ASCII range, which covers every pattern the parser matches). -/
def lowerChar (c : Char) : Char :=
  if 'A' ≤ c ∧ c ≤ 'Z' then Char.ofNat (c.toNat + 32) else c

/-- Prefix test on character lists (`startsWithL p s` is true when `p`
is an initial segment of `s`). -/
def startsWithL : List Char → List Char → Bool
  | [], _ => true
  | _ :: _, [] => false
  | a :: as, b :: bs => a == b && startsWithL as bs

/-- Substring containment, the Python `pattern in text` test. -/
def containsSub (p : List Char) : List Char → Bool
  | [] => startsWithL p []
  | c :: rest => startsWithL p (c :: rest) || containsSub p rest

/-- A resolved IANA time zone, reduced to its two offset maps (in
seconds): `offsetAtUTC` is the offset `astimezone` adds when converting
a UTC instant to local wall time, and `offsetAtLocal` is the offset
`astimezone(UTC)` subtracts from an aware local wall time. For a
fixed-offset zone the two maps are the same constant. -/
structure ZoneR where
  offsetAtUTC : Int → Int
  offsetAtLocal : Int → Int

/-- Conversion of an aware local wall time to a naive UTC datetime:
the `astimezone(ZoneInfo("UTC")).replace(tzinfo=None)` idiom of
`ChatService.parse_time_filter`. -/
def localToUTC (zone : ZoneR) (wall : Int) : Int :=
  wall - zone.offsetAtLocal wall

/-- Seconds in a day. -/
def SECONDS_PER_DAY : Int := 86400

/-- Python `weekday()` (Monday = 0) of a naive datetime in seconds; the
epoch day 1970-01-01 was a Thursday (weekday 3). -/
def weekdayOf (t : Int) : Int :=
  (t.fdiv SECONDS_PER_DAY + 3).emod 7

/-- Civil date (year, month, day) of a day count since 1970-01-01,
using the standard proleptic-Gregorian algorithm. -/
def civilFromDays (z0 : Int) : Int × Int × Int :=
  let z := z0 + 719468
  let era := z.fdiv 146097
  let doe := z - era * 146097
  let yoe := (doe - doe.fdiv 1460 + doe.fdiv 36524 - doe.fdiv 146096).fdiv 365
  let y := yoe + era * 400
  let doy := doe - (365 * yoe + yoe.fdiv 4 - yoe.fdiv 100)
  let mp := (5 * doy + 2).fdiv 153
  let d := doy - (153 * mp + 2).fdiv 5 + 1
  let m := if mp < 10 then mp + 3 else mp - 9
  (if m ≤ 2 then y + 1 else y, m, d)

/-- Day count since 1970-01-01 of a civil date (inverse of
`civilFromDays`). -/
def daysFromCivil (y0 m d : Int) : Int :=
  let y := if m ≤ 2 then y0 - 1 else y0
  let era := y.fdiv 400
  let yoe := y - era * 400
  let mp := if 2 < m then m - 3 else m + 9
  let doy := (153 * mp + 2).fdiv 5 + d - 1
  let doe := yoe * 365 + yoe.fdiv 4 - yoe.fdiv 100 + doy
  era * 146097 + doe - 719468

/-- Local midnight of the first day of the month containing the local
wall time `w` (the `replace(day=1)` applied to a local midnight). -/
def monthStartLocal (w : Int) : Int :=
  let c := civilFromDays (w.fdiv SECONDS_PER_DAY)
  SECONDS_PER_DAY * daysFromCivil c.1 c.2.1 1

/-- Local midnight of the first day of the previous month (the
December-to-January rollover branch of the `last month` case). -/
def lastMonthStartLocal (w : Int) : Int :=
  let c := civilFromDays (w.fdiv SECONDS_PER_DAY)
  if c.2.1 = 1 then SECONDS_PER_DAY * daysFromCivil (c.1 - 1) 12 1
  else SECONDS_PER_DAY * daysFromCivil c.1 (c.2.1 - 1) 1

/-- Time-filter parsing (`services/chat.py`,
`ChatService.parse_time_filter`) over an already-resolved zone (the
route falls back to UTC for an unrecognized zone name before this logic
runs). `nowUTC` is `datetime.now(UTC)`. Patterns are tested by
substring match on the lowercased query, in source order; the returned
bounds are naive UTC datetimes. -/
def parse_time_filter (query : List Char) (zone : ZoneR) (nowUTC : Int) :
    Option (Int × Int) :=
  let q := query.map lowerChar
  let nowLocal := nowUTC + zone.offsetAtUTC nowUTC
  let todayStartLocal := SECONDS_PER_DAY * (nowLocal.fdiv SECONDS_PER_DAY)
  if containsSub "today".toList q || containsSub "from today".toList q then
    some (localToUTC zone todayStartLocal, nowUTC)
  else if containsSub "yesterday".toList q then
    some (localToUTC zone (todayStartLocal - SECONDS_PER_DAY),
          localToUTC zone todayStartLocal)
  else if containsSub "this week".toList q then
    some (localToUTC zone (todayStartLocal - SECONDS_PER_DAY * weekdayOf nowLocal),
          nowUTC)
  else if containsSub "last week".toList q then
    some (localToUTC zone
            (todayStartLocal - SECONDS_PER_DAY * weekdayOf nowLocal - 7 * SECONDS_PER_DAY),
          localToUTC zone (todayStartLocal - SECONDS_PER_DAY * weekdayOf nowLocal))
  else if containsSub "this month".toList q then
    some (localToUTC zone (monthStartLocal todayStartLocal), nowUTC)
  else if containsSub "last month".toList q then
    some (localToUTC zone (lastMonthStartLocal todayStartLocal),
          localToUTC zone (monthStartLocal todayStartLocal))
  else
    none

/-- Window the spec prescribes for a query containing "today", written
from the spec's words: start is the local midnight of the current local
calendar day in the client zone, converted to the canonical (UTC) zone
and stripped of zone annotation; end is the current instant converted
to the canonical zone and stripped of zone annotation. -/
def todayWindowSpec (zone : ZoneR) (T : Int) : Int × Int :=
  let localT := T + zone.offsetAtUTC T
  let midnight := SECONDS_PER_DAY * (localT.fdiv SECONDS_PER_DAY)
  (midnight - zone.offsetAtLocal midnight, T)

/-- Token budget constants of `services/chat.py`. -/
def MAX_CONTEXT_TOKENS : Nat := 6000

/-- Rough characters-per-token estimate of `services/chat.py`. -/
def AVG_CHARS_PER_TOKEN : Nat := 4

/-- Inputs of one context entry: the strftime-rendered timestamp is
taken as given (opaque presentation formatting), the rest mirrors the
fields read from the transcript row. -/
structure ChatEntry where
  timestampText : List Char
  locationName : Option (List Char)
  speakerName : List Char
  text : List Char
deriving DecidableEq

/-- Formatting of one context entry
(`ChatService.build_chat_context` lines 271-274). -/
def formatEntry (e : ChatEntry) : List Char :=
  '[' :: (e.timestampText ++
    (match e.locationName with
     | some l => " at ".toList ++ l
     | none => []) ++
    (']' :: ' ' :: (e.speakerName ++ (':' :: ' ' :: e.text))))

/-- Budget loop of `ChatService.build_chat_context`: accumulate entries
while they fit; on the first entry that would overflow, reserve 50
characters, truncate it with a trailing ellipsis if more than 100
characters remain, else drop it; stop either way. -/
def buildParts (maxChars : Nat) : Nat → List ChatEntry → List (List Char)
  | _, [] => []
  | total, e :: rest =>
      let entry := formatEntry e
      if maxChars < total + entry.length then
        let remaining : Int := (maxChars : Int) - (total : Int) - 50
        if 100 < remaining then [entry.take remaining.toNat ++ "...".toList]
        else []
      else
        entry :: buildParts maxChars (total + entry.length + 2) rest

/-- Joining of context parts with blank lines (`"\n\n".join(parts)`). -/
def joinBlankSep : List (List Char) → List Char
  | [] => []
  | [p] => p
  | p :: q :: rest => p ++ '\n' :: '\n' :: joinBlankSep (q :: rest)

/-- Context assembly (`ChatService.build_chat_context`). -/
def build_chat_context (entries : List ChatEntry) (maxTokens : Nat) : List Char :=
  if entries.isEmpty then []
  else joinBlankSep (buildParts (maxTokens * AVG_CHARS_PER_TOKEN) 0 entries)

/-- Retrieval phase of the `/chat` route handler (`routers/chat.py`,
`chat`): user lookup, time-filter parsing, query embedding (fatal on
failure), then vector search. The search itself is an opaque function
of the query embedding and the parsed time filter. Returns the
transcripts retrieved for context and citations. -/
def chat_request (user : Option UserR) (message : List Char) (zone : ZoneR)
    (nowUTC : Int) (queryEmbed : Option (List ℚ))
    (search : List ℚ → Option (Int × Int) → List Transcript) :
    Except ApiError (List Transcript) :=
  match user with
  | none => .error .userNotFound
  | some _ =>
    let timeFilter := parse_time_filter message zone nowUTC
    match queryEmbed with
    | none => .error .queryEmbedFailed
    | some v => .ok (search v timeFilter)

/-- Parsed WAV metadata (`services/audio_validation.py`). Container
parsing itself (RIFF/WAVE/fmt/data chunk traversal, lines 45-130) is
treated as the spec treats it — a black box yielding these fields or
failing — so the model starts from the parsed header. -/
structure WavMeta where
  sample_rate : Nat
  channels : Nat
  bits_per_sample : Nat
  data_size : Nat
deriving DecidableEq

/-- Sample count derived from the data chunk
(`audio_validation.py` lines 132-133, Python floor divisions). -/
def wavNumSamples (m : WavMeta) : Nat :=
  m.data_size / (m.channels * (m.bits_per_sample / 8))

/-- Duration in seconds (`audio_validation.py` line 134, true
division). -/
def wavDuration (m : WavMeta) : ℚ :=
  (wavNumSamples m : ℚ) / (m.sample_rate : ℚ)

/-- Sample-rate and duration validation of `validate_wav_audio`
(`audio_validation.py` lines 146-171). -/
def validate_wav_audio (m : WavMeta) (minDuration maxDuration : ℚ)
    (expected_sample_rate : Option Nat) : Except AudioValidationError WavMeta :=
  match expected_sample_rate with
  | some sr =>
      if m.sample_rate == sr then
        if wavDuration m < minDuration then .error .tooShort
        else if maxDuration < wavDuration m then .error .tooLong
        else .ok m
      else .error .invalidSampleRate
  | none =>
      if wavDuration m < minDuration then .error .tooShort
      else if maxDuration < wavDuration m then .error .tooLong
      else .ok m

/-- Enrollment window: 15 to 30 seconds
(`validate_enrollment_audio`). -/
def validate_enrollment_audio (m : WavMeta) : Except AudioValidationError WavMeta :=
  validate_wav_audio m 15 30 none

/-- Transcription-chunk window: 1 to 60 seconds
(`validate_transcription_audio`; defined in the source but never called
by any route). -/
def validate_transcription_audio (m : WavMeta) : Except AudioValidationError WavMeta :=
  validate_wav_audio m 1 60 none

/-- The `/enroll` route handler (`routers/enrollment.py`,
`enroll_voice`), from the point where the upload has been read:
validate the audio, look up the user, extract the voiceprint (opaque;
`none` = extraction failure, and a non-192-dimensional result is also a
failure), then store it on the user. Returns the updated user row. -/
def enroll_voice (m : WavMeta) (user : Option UserR)
    (extractResult : Option (List ℚ)) : Except ApiError UserR :=
  match validate_enrollment_audio m with
  | .error c => .error (.audioFormat c)
  | .ok _ =>
  match user with
  | none => .error .userNotFound
  | some u =>
  match extractResult with
  | none => .error .verificationFailed
  | some embedding =>
      if embedding.length == 192 then
        .ok { u with voiceprint_embedding := some embedding }
      else .error .verificationFailed

/-- Audio-format-error discriminator on transcribe outcomes. -/
def isAudioFormatError : Except ApiError (TranscribeResponse × List Transcript) → Bool
  | .error (.audioFormat _) => true
  | _ => false

/-- Dot product of two embedding vectors (`np.dot`). -/
noncomputable def dotL (a b : List ℝ) : ℝ :=
  (List.zipWith (· * ·) a b).sum

/-- Euclidean norm (`np.linalg.norm`). -/
noncomputable def normL (v : List ℝ) : ℝ :=
  Real.sqrt (dotL v v)

open Classical in
/-- Cosine-similarity comparison
(`services/speaker_verification.py`,
`SpeakerVerificationService.compare_embeddings`): zero-norm guard, then
`dot / (norm1 * norm2)` clamped to the unit interval. -/
noncomputable def compare_embeddings (e1 e2 : List ℝ) : ℝ :=
  if normL e1 = 0 ∨ normL e2 = 0 then 0
  else max 0 (min 1 (dotL e1 e2 / (normL e1 * normL e2)))

/-- Acceptance decision of `verify_speaker` (line 185):
`is_match = similarity >= threshold`. -/
def verify_accepts (audioEmb enrolled : List ℝ) (threshold : ℝ) : Prop :=
  threshold ≤ compare_embeddings audioEmb enrolled

/-- Store contents after a transcribe outcome (unchanged store of the
input is returned on an error, matching the absence of any commit on
the error paths). -/
def storedAfter (r : Except ApiError (TranscribeResponse × List Transcript)) :
    List Transcript :=
  match r with
  | .ok x => x.2
  | .error _ => []

/-- Success discriminator on transcribe outcomes. -/
def isOk (r : Except ApiError (TranscribeResponse × List Transcript)) : Bool :=
  match r with
  | .ok _ => true
  | .error _ => false

/-- Minimal transcript row used by concrete test instances. -/
def mkRow (id uid sess : Nat) (s e : Int) : Transcript :=
  { id := id, user_id := uid, session_id := sess,
    speaker_type := "primary".toList, speaker_id := none,
    speaker_name := ['u'], transcript_text := ['a'],
    timestamp_start := s, timestamp_end := e,
    latitude := none, longitude := none, location_name := none,
    embedding := none }

/-- Sum of elementwise squares is nonnegative. -/
theorem dotL_self_nonneg (v : List ℝ) : 0 ≤ dotL v v := by
  induction v with
  | nil => simp [dotL]
  | cons a t ih =>
      have : dotL (a :: t) (a :: t) = a * a + dotL t t := by
        simp [dotL]
      rw [this]
      exact add_nonneg (mul_self_nonneg a) ih

/-- C1: a transcribe request whose similarity is strictly below the
threshold persists nothing — the store is returned unchanged — and the
response has an empty segment list, `filtered_segments = 1` and a null
session id. -/
theorem transcribe_rejected_is_pure_filter
    (store : List Transcript) (uid : Nat) (uname : List Char) (vp : List ℚ)
    (ts_start ts_end : Int) (lat lng : Option ℚ) (similarity threshold : ℚ)
    (whisperResult geocodeResult : Option (List Char))
    (embedResult : Option (List ℚ)) (freshSession freshId : Nat)
    (h : similarity < threshold) :
    transcribe_audio store (some ⟨uid, uname, some vp⟩) (some (ts_start, ts_end))
      lat lng similarity threshold whisperResult geocodeResult embedResult
      freshSession freshId =
    .ok ({ processed := true, segments := [], filtered_segments := 1,
           session_id := none }, store) := by
  simp [transcribe_audio, not_le.mpr h]

/-- Witness for C1 at a concrete rejected request. -/
theorem transcribe_rejected_is_pure_filter_witness :
    (3 : ℚ)/10 < 13/20 ∧
    transcribe_audio [] (some ⟨1, ['u'], some [1]⟩) (some (0, 10))
      none none (3/10) (13/20) none none none 7 3 =
    .ok ({ processed := true, segments := [], filtered_segments := 1,
           session_id := none }, []) :=
  ⟨by norm_num,
   transcribe_rejected_is_pure_filter [] 1 ['u'] [1] 0 10 none none (3/10) (13/20)
     none none none 7 3 (by norm_num)⟩

/-- C2 counterexample: a user with two segments in two sessions; the
listing filtered to one session reports `total = 2` although only one
of the user's segments matches the session filter. -/
theorem get_transcripts_total_ignores_session_filter :
    listTotal (get_transcripts [mkRow 1 1 10 0 10, mkRow 2 1 11 700 710]
      (some ⟨1, ['u'], none⟩) 10 0 (some 10)) = some 2 ∧
    (([mkRow 1 1 10 0 10, mkRow 2 1 11 700 710].filter
        (fun t => t.user_id == 1 && t.session_id == 10)).length = 1) := by
  constructor
  · rfl
  · rfl

/-- C2 amended: the reported total is the count of all of the user's
segments, ignoring the session filter, and is independent of `limit`
and `offset`. -/
theorem get_transcripts_total_counts_all_user_segments
    (store : List Transcript) (u : UserR) (limit offset : Nat)
    (session_id : Option Nat) :
    listTotal (get_transcripts store (some u) limit offset session_id) =
      some ((store.filter (fun t => t.user_id == u.id)).length) := by
  rfl

/-- C6: session resolution reuses the most recent segment's session id
exactly when the gap from its `timestamp_end` to the new chunk's
`timestamp_start` is at most 5 minutes, mints a fresh id for a strictly
larger gap, and mints a fresh id when the user has no previous
segment. -/
theorem session_resolution_gap_rule (store : List Transcript) (uid : Nat)
    (ts : Int) (fresh : Nat) :
    (lastTranscriptFor store uid = none →
      get_or_create_session_id store uid ts fresh = fresh) ∧
    (∀ last, lastTranscriptFor store uid = some last →
      ((ts - last.timestamp_end ≤ SESSION_GAP_MINUTES * 60 →
         get_or_create_session_id store uid ts fresh = last.session_id) ∧
       (SESSION_GAP_MINUTES * 60 < ts - last.timestamp_end →
         get_or_create_session_id store uid ts fresh = fresh))) := by
  constructor
  · intro h
    unfold get_or_create_session_id
    rw [h]
  · intro last h
    constructor
    · intro hle
      simp only [get_or_create_session_id, h]
      rw [if_neg (not_lt.mpr hle)]
    · intro hgt
      simp only [get_or_create_session_id, h]
      rw [if_pos hgt]

/-- Witness for C6: one prior segment ending at 600; a chunk starting
at 800 (gap 200 s ≤ 300 s) continues session 10, and a chunk starting
at 901 (gap 301 s > 300 s) gets the fresh session id 7. -/
theorem session_resolution_gap_rule_witness :
    (lastTranscriptFor [mkRow 1 1 10 0 600] 1 = some (mkRow 1 1 10 0 600) ∧
      (800 : Int) - (mkRow 1 1 10 0 600).timestamp_end ≤ SESSION_GAP_MINUTES * 60 ∧
      get_or_create_session_id [mkRow 1 1 10 0 600] 1 800 7 =
        (mkRow 1 1 10 0 600).session_id) ∧
    (SESSION_GAP_MINUTES * 60 < (901 : Int) - (mkRow 1 1 10 0 600).timestamp_end ∧
      get_or_create_session_id [mkRow 1 1 10 0 600] 1 901 7 = 7) := by
  refine ⟨⟨by decide, by decide, ?_⟩, by decide, ?_⟩
  · exact (((session_resolution_gap_rule [mkRow 1 1 10 0 600] 1 800 7).2
      (mkRow 1 1 10 0 600) (by decide)).1 (by decide))
  · exact (((session_resolution_gap_rule [mkRow 1 1 10 0 600] 1 901 7).2
      (mkRow 1 1 10 0 600) (by decide)).2 (by decide))

/-- C3: the enrollment route rejects durations outside its 15-30 s
window with a typed audio-format error before extraction or any state
change (first two conjuncts: a 1 s and a 40 s upload), but the
transcribe route performs no duration validation at all — no input
whatsoever makes it return an audio-format error, so an out-of-window
chunk proceeds to speaker verification and possible persistence
(`validate_transcription_audio` exists in the source but has no
caller). -/
theorem duration_window_enforcement :
    enroll_voice ⟨16000, 1, 16, 32000⟩ (some ⟨1, ['u'], none⟩) (some []) =
      .error (.audioFormat .tooShort) ∧
    enroll_voice ⟨16000, 1, 16, 1280000⟩ (some ⟨1, ['u'], none⟩) (some []) =
      .error (.audioFormat .tooLong) ∧
    ∀ store user parsedTs lat lng similarity threshold whisperResult
      geocodeResult embedResult freshSession freshId,
      isAudioFormatError (transcribe_audio store user parsedTs lat lng similarity
        threshold whisperResult geocodeResult embedResult freshSession freshId) =
        false := by
  refine ⟨?_, ?_, ?_⟩
  · have hv : validate_enrollment_audio ⟨16000, 1, 16, 32000⟩ = .error .tooShort := by
      norm_num [validate_enrollment_audio, validate_wav_audio, wavDuration,
        wavNumSamples]
    unfold enroll_voice
    rw [hv]
  · have hv : validate_enrollment_audio ⟨16000, 1, 16, 1280000⟩ = .error .tooLong := by
      norm_num [validate_enrollment_audio, validate_wav_audio, wavDuration,
        wavNumSamples]
    unfold enroll_voice
    rw [hv]
  intro store user parsedTs lat lng similarity threshold whisperResult
    geocodeResult embedResult freshSession freshId
  rcases parsedTs with _ | ⟨ts1, ts2⟩
  · rfl
  rcases user with _ | ⟨uid, uname, vp⟩
  · rfl
  rcases vp with _ | vp0
  · rfl
  by_cases hm : threshold ≤ similarity
  · rcases whisperResult with _ | text
    · simp [transcribe_audio, isAudioFormatError, hm]
    · by_cases he : (stripWs text).isEmpty
      · simp [transcribe_audio, isAudioFormatError, hm, he]
      · simp [transcribe_audio, isAudioFormatError, hm, he]
  · simp [transcribe_audio, isAudioFormatError, hm]

/-- C4 counterexample: a transcribe request whose client-supplied
timestamps parse to start 100 and end 50 (both valid ISO instants)
passes the gate and persists a segment with
`timestamp_end < timestamp_start`. -/
theorem transcribe_persists_reversed_timestamps :
    ((storedAfter (transcribe_audio [] (some ⟨1, ['u'], some [1]⟩) (some (100, 50))
        none none 1 0 (some ['h']) none none 7 3)).map
      (fun t => (t.timestamp_start, t.timestamp_end))) = [(100, 50)] ∧
    (50 : Int) < 100 := by
  exact ⟨by decide, by norm_num⟩

/-- C4 amended: persisted segments carry the client-supplied parsed
timestamps verbatim, so the `timestamp_end >= timestamp_start`
invariant holds exactly when the client supplies it; under a
well-ordered pair (and a store already satisfying the invariant) every
stored segment satisfies it after the request. -/
theorem transcribe_preserves_timestamp_order
    (store : List Transcript) (user : Option UserR) (ts_start ts_end : Int)
    (lat lng : Option ℚ) (similarity threshold : ℚ)
    (whisperResult geocodeResult : Option (List Char))
    (embedResult : Option (List ℚ)) (freshSession freshId : Nat)
    (hstore : store.all (fun t => decide (t.timestamp_start ≤ t.timestamp_end)) = true)
    (h : ts_start ≤ ts_end) :
    (storedAfter (transcribe_audio store user (some (ts_start, ts_end)) lat lng
       similarity threshold whisperResult geocodeResult embedResult
       freshSession freshId)).all
      (fun t => decide (t.timestamp_start ≤ t.timestamp_end)) = true := by
  rcases user with _ | ⟨uid, uname, vp⟩
  · rfl
  rcases vp with _ | vp0
  · rfl
  by_cases hm : threshold ≤ similarity
  · rcases whisperResult with _ | text
    · simp [transcribe_audio, storedAfter, hm]
    · by_cases he : (stripWs text).isEmpty
      · simpa [transcribe_audio, storedAfter, hm, he] using hstore
      · simp [transcribe_audio, storedAfter, hm, he, List.all_append, hstore, h]
  · simpa [transcribe_audio, storedAfter, hm] using hstore

/-- Witness for C4 (amended) at a concrete accepted request. -/
theorem transcribe_preserves_timestamp_order_witness :
    ([] : List Transcript).all
      (fun t => decide (t.timestamp_start ≤ t.timestamp_end)) = true ∧
    (0 : Int) ≤ 10 ∧
    (storedAfter (transcribe_audio [] (some ⟨1, ['u'], some [1]⟩) (some (0, 10))
       none none 1 0 (some ['h']) none none 7 3)).all
      (fun t => decide (t.timestamp_start ≤ t.timestamp_end)) = true :=
  ⟨rfl, by norm_num,
   transcribe_preserves_timestamp_order [] (some ⟨1, ['u'], some [1]⟩) 0 10
     none none 1 0 (some ['h']) none none 7 3 rfl (by norm_num)⟩

/-- C9: text-embedding failure is asymmetric by phase. If embedding
fails during transcript append (`embedResult = none`), the append still
succeeds and exactly the new segment is persisted with a null
embedding; if embedding the query fails during a chat request, the
request fails with an error (for every possible retrieval function, so
no retrieval outcome is ever consulted). -/
theorem embedding_failure_asymmetry :
    (∀ (store : List Transcript) (uid : Nat) (uname : List Char) (vp : List ℚ)
       (ts_start ts_end : Int) (lat lng : Option ℚ) (similarity threshold : ℚ)
       (text : List Char) (geocodeResult : Option (List Char))
       (freshSession freshId : Nat),
      threshold ≤ similarity → (stripWs text).isEmpty = false →
      isOk (transcribe_audio store (some ⟨uid, uname, some vp⟩)
        (some (ts_start, ts_end)) lat lng similarity threshold (some text)
        geocodeResult none freshSession freshId) = true ∧
      (storedAfter (transcribe_audio store (some ⟨uid, uname, some vp⟩)
        (some (ts_start, ts_end)) lat lng similarity threshold (some text)
        geocodeResult none freshSession freshId)).map
          (fun t => (t.transcript_text, t.embedding)) =
        store.map (fun t => (t.transcript_text, t.embedding)) ++ [(text, none)]) ∧
    (∀ (u : UserR) (message : List Char) (zone : ZoneR) (nowUTC : Int)
       (search : List ℚ → Option (Int × Int) → List Transcript),
      chat_request (some u) message zone nowUTC none search =
        .error .queryEmbedFailed) := by
  constructor
  · intro store uid uname vp ts_start ts_end lat lng similarity threshold text
      geocodeResult freshSession freshId hm he
    constructor
    · simp [transcribe_audio, isOk, hm, he]
    · simp [transcribe_audio, storedAfter, hm, he]
  · intro u message zone nowUTC search
    rfl

/-- Witness for C9 at a concrete accepted request with a failed
embedding call. -/
theorem embedding_failure_asymmetry_witness :
    ((0 : ℚ) ≤ 1 ∧ (stripWs ['h']).isEmpty = false) ∧
    isOk (transcribe_audio [] (some ⟨1, ['u'], some [1]⟩) (some (0, 10)) none none
      1 0 (some ['h']) none none 7 3) = true ∧
    (storedAfter (transcribe_audio [] (some ⟨1, ['u'], some [1]⟩) (some (0, 10))
       none none 1 0 (some ['h']) none none 7 3)).map
        (fun t => (t.transcript_text, t.embedding)) =
      ([] : List Transcript).map (fun t => (t.transcript_text, t.embedding)) ++
        [(['h'], none)] :=
  ⟨⟨by norm_num, rfl⟩,
   (embedding_failure_asymmetry.1 [] 1 ['u'] [1] 0 10 none none 1 0 ['h'] none 7 3
     (by norm_num) rfl).1,
   (embedding_failure_asymmetry.1 [] 1 ['u'] [1] 0 10 none none 1 0 ['h'] none 7 3
     (by norm_num) rfl).2⟩

/-- C7: a query containing "today" (after lowercasing) always parses to
the window whose start is the local midnight of the current local
calendar day converted to UTC and stripped of zone annotation, and
whose end is the current instant itself (already UTC, stripped of zone
annotation). -/
theorem parse_today_window (query : List Char) (zone : ZoneR) (T : Int)
    (h : containsSub "today".toList (query.map lowerChar) = true) :
    parse_time_filter query zone T = some (todayWindowSpec zone T) := by
  have h' : containsSub ['t', 'o', 'd', 'a', 'y'] (query.map lowerChar) = true := by
    simpa using h
  simp [parse_time_filter, todayWindowSpec, localToUTC, h']

/-- Witness for C7: a concrete query in a fixed UTC-7 zone. -/
theorem parse_today_window_witness :
    containsSub "today".toList (("What did I do Today?".toList).map lowerChar) =
      true ∧
    parse_time_filter "What did I do Today?".toList
      ⟨fun _ => -25200, fun _ => -25200⟩ 1000000 =
    some (todayWindowSpec ⟨fun _ => -25200, fun _ => -25200⟩ 1000000) :=
  ⟨by decide,
   parse_today_window "What did I do Today?".toList
     ⟨fun _ => -25200, fun _ => -25200⟩ 1000000 (by decide)⟩

/-- C8 counterexample: a single 26-character entry against a
20-character budget (5 tokens) overflows the budget, yet the builder
returns an empty context — the entry is silently dropped, not truncated
with an ellipsis, because fewer than 151 characters of budget remain. -/
theorem context_drops_overflow_entry_under_reserve :
    build_chat_context [⟨['t'], none, ['s'], List.replicate 20 'a'⟩] 5 = [] ∧
    5 * AVG_CHARS_PER_TOKEN <
      (formatEntry ⟨['t'], none, ['s'], List.replicate 20 'a'⟩).length := by
  exact ⟨by decide, by decide⟩

/-- C8 amended: when the next formatted entry would overflow the
remaining budget, it is truncated with a trailing ellipsis and included
as the final entry only if, after a 50-character reserve, more than 100
characters of budget remain (that is, more than 150 characters in
total); otherwise it is dropped. Formatting stops either way, and an
included truncated entry fits the remaining budget. -/
theorem context_overflow_truncation_rule (maxChars total : Nat) (e : ChatEntry)
    (rest : List ChatEntry)
    (h : maxChars < total + (formatEntry e).length) :
    buildParts maxChars total (e :: rest) =
      (if 100 < (maxChars : Int) - total - 50 then
        [(formatEntry e).take ((maxChars : Int) - total - 50).toNat ++ "...".toList]
      else []) ∧
    (100 < (maxChars : Int) - total - 50 →
      total + ((formatEntry e).take ((maxChars : Int) - total - 50).toNat ++
        "...".toList).length ≤ maxChars) := by
  constructor
  · simp only [buildParts]
    rw [if_pos h]
  · intro hc
    have hlen : ((formatEntry e).take ((maxChars : Int) - total - 50).toNat).length ≤
        ((maxChars : Int) - total - 50).toNat :=
      List.length_take_le _ _
    rw [List.length_append]
    have h3 : ("...".toList).length = 3 := rfl
    omega

set_option maxRecDepth 8000 in
/-- Witness for C8 (amended): a 206-character entry against a
200-character budget is truncated to 150 characters plus an ellipsis
and included. -/
theorem context_overflow_truncation_rule_witness :
    200 < 0 + (formatEntry ⟨['t'], none, ['s'], List.replicate 200 'a'⟩).length ∧
    buildParts 200 0 [⟨['t'], none, ['s'], List.replicate 200 'a'⟩] =
      (if 100 < (200 : Int) - 0 - 50 then
        [(formatEntry ⟨['t'], none, ['s'], List.replicate 200 'a'⟩).take
          ((200 : Int) - 0 - 50).toNat ++ "...".toList]
      else []) :=
  ⟨by decide,
   (context_overflow_truncation_rule 200 0 ⟨['t'], none, ['s'], List.replicate 200 'a'⟩
     [] (by decide)).1⟩

/-- C5 counterexample: the zero vector compared with itself yields
similarity 0, not 1 (the zero-norm guard fires), so "identical vectors
yield 1.0" fails without a nonzero-norm restriction. -/
theorem cosine_self_zero_vector_counterexample :
    compare_embeddings [(0 : ℝ)] [0] = 0 ∧ (0 : ℝ) ≠ 1 := by
  constructor
  · have hz : normL [(0 : ℝ)] = 0 := by
      simp [normL, dotL]
    unfold compare_embeddings
    rw [if_pos (Or.inl hz)]
  · norm_num

/-- C5 amended: the computed similarity always lies in the unit
interval; every vector of nonzero norm compared with itself yields 1;
every orthogonal pair (zero dot product) yields 0. -/
theorem cosine_similarity_spec :
    (∀ e1 e2 : List ℝ, compare_embeddings e1 e2 ∈ Set.Icc (0 : ℝ) 1) ∧
    (∀ v : List ℝ, normL v ≠ 0 → compare_embeddings v v = 1) ∧
    (∀ a b : List ℝ, dotL a b = 0 → compare_embeddings a b = 0) := by
  refine ⟨?_, ?_, ?_⟩
  · intro e1 e2
    unfold compare_embeddings
    split_ifs with h
    · exact ⟨le_refl 0, zero_le_one⟩
    · exact ⟨le_max_left _ _, max_le zero_le_one (min_le_left _ _)⟩
  · intro v hv
    unfold compare_embeddings
    rw [if_neg (by tauto)]
    have hd : dotL v v ≠ 0 := by
      intro h0
      exact hv (by rw [normL, h0, Real.sqrt_zero])
    have hsq : normL v * normL v = dotL v v :=
      Real.mul_self_sqrt (dotL_self_nonneg v)
    rw [hsq, div_self hd]
    norm_num
  · intro a b hab
    unfold compare_embeddings
    split_ifs with h
    · rfl
    · rw [hab, zero_div]
      norm_num

/-- Witness for C5 (amended): the one-dimensional unit vector has
nonzero norm and self-similarity 1. -/
theorem cosine_similarity_spec_witness :
    normL [(1 : ℝ)] ≠ 0 ∧ compare_embeddings [(1 : ℝ)] [1] = 1 := by
  have h1 : normL [(1 : ℝ)] ≠ 0 := by
    simp [normL, dotL]
  exact ⟨h1, cosine_similarity_spec.2.1 [1] h1⟩

/-- C10: the comparison function is total — whenever either vector has
zero norm it returns 0 instead of dividing by zero — and therefore a
zero enrolled voiceprint is rejected by the acceptance gate for every
strictly positive threshold. -/
theorem zero_norm_gate_rejects :
    (∀ a b : List ℝ, (normL a = 0 ∨ normL b = 0) → compare_embeddings a b = 0) ∧
    (∀ (a b : List ℝ) (threshold : ℝ), 0 < threshold → normL b = 0 →
      ¬ verify_accepts a b threshold) := by
  have hzero : ∀ a b : List ℝ, (normL a = 0 ∨ normL b = 0) →
      compare_embeddings a b = 0 := by
    intro a b h
    unfold compare_embeddings
    rw [if_pos h]
  refine ⟨hzero, ?_⟩
  intro a b threshold hth hb hacc
  unfold verify_accepts at hacc
  rw [hzero a b (Or.inr hb)] at hacc
  exact (not_le.mpr hth) hacc

/-- Witness for C10: a zero enrolled voiceprint is rejected at
threshold 1/2. -/
theorem zero_norm_gate_rejects_witness :
    (normL [(0 : ℝ)] = 0 ∧ (0 : ℝ) < 1/2) ∧
    ¬ verify_accepts [(1 : ℝ)] [0] (1/2) := by
  have hb : normL [(0 : ℝ)] = 0 := by
    simp [normL, dotL]
  exact ⟨⟨hb, by norm_num⟩, zero_norm_gate_rejects.2 [1] [0] (1/2) (by norm_num) hb⟩

end AlwaysOn
